import Mathlib

set_option maxRecDepth 10000

/-!
# Verification of the expense-tracker budget/notification engine

A shallow embedding of the budget reconciliation and notification logic of
the expense-tracker API (FastAPI + SQLAlchemy).  Monetary amounts (Python
`float` columns holding decimal currency values) are modelled as `ℚ`;
SQL `Date` and `DateTime` columns are modelled as `Int` (ordered time
points; for `DateTime` the unit is seconds).  Database tables are lists of
rows in database order; a SQLAlchemy `.first()` is `List.head?` of the
filtered list, `.all()` is the filtered list itself.

Each definition is translated from a named function of the repository:
  * `remaining` computations: `app/routers/budget.py`
    (`get_general_budget_status`), `app/routers/category_budgets.py`
    (`retrieve_category_budget_status`), and
    `app/background_tasks/jobs/threshold_checks.py` (`check_budget`,
    `check_category_budget`);
  * budget CRUD guards: `app/routers/budget.py` and
    `app/routers/category_budgets.py`;
  * sweeps: `app/background_tasks/jobs/budget_monitoring.py`
    (`check_and_deactivate_expired_budgets`) and `app/main.py`
    (`delete_old_notifications`);
  * group-expense splitting: `app/routers/group_expenses.py`
    (`create_and_split_group_expense`).
-/

namespace ExpenseTracker

/-- `app/models/expense.py` — `Expense` row. -/
structure Expense where
  id : Nat
  amount : ℚ
  date : Int
  user_id : Nat
  category_id : Nat
  deriving DecidableEq, Repr

/-- `app/models/budget.py` — the general budget row (table `budgets`).
`status` is `"active"` or `"deactivated"`. -/
structure GeneralBudget where
  id : Nat
  amount_limit : ℚ
  start_date : Int
  end_date : Int
  user_id : Nat
  status : String
  deriving DecidableEq, Repr

/-- `app/models/category_budget.py` — `CategoryBudget` row. -/
structure CategoryBudget where
  id : Nat
  category_id : Nat
  amount_limit : ℚ
  start_date : Int
  end_date : Int
  user_id : Nat
  status : String
  deriving DecidableEq, Repr

/-- `app/models/category.py` — `Category` row (only the fields the core
logic reads). -/
structure Category where
  id : Nat
  user_id : Nat
  name : String
  deriving DecidableEq, Repr

/-- `app/models/notification.py` — `NotificationType` enum. -/
inductive NotificationType where
  | ALERT
  | GROUP_DEBT
  | SYSTEM
  deriving DecidableEq, Repr

/-- `app/models/notification.py` — `Notification` row.  The `type` column
is declared `nullable=False` in the model, but several code paths build a
`Notification` without passing a type; the field is therefore modelled as
an `Option` so that those writes can be expressed (a `none` here is a row
that violates the declared NOT NULL constraint). -/
structure Notification where
  id : Nat
  user_id : Nat
  type : Option NotificationType
  message : String
  is_read : Bool
  created_at : Int
  deriving DecidableEq, Repr

/-- `app/models/group_member.py` — `GroupMember` row. -/
structure GroupMember where
  id : Nat
  user_id : Nat
  group_id : Nat
  status : String
  deriving DecidableEq, Repr

/-- `app/models/group_expense.py` — `GroupExpense` row. -/
structure GroupExpense where
  id : Nat
  group_id : Nat
  payer_id : Nat
  amount : ℚ
  description : String
  deriving DecidableEq, Repr

/-- `app/models/expense_split.py` — `ExpenseSplit` row. -/
structure ExpenseSplit where
  id : Nat
  expense_id : Nat
  user_id : Nat
  amount : ℚ
  deriving DecidableEq, Repr

/-- `app/models/group_debt.py` — `GroupDebt` row (fields the split flow
writes). -/
structure GroupDebt where
  id : Nat
  group_id : Nat
  debtor_id : Nat
  creditor_id : Nat
  amount : ℚ
  description : String
  status : String
  deriving DecidableEq, Repr

/-- `app/models/user.py` — `User` row (only the fields the core reads). -/
structure User where
  id : Nat
  username : String
  deriving DecidableEq, Repr

/-- The database state visible to the embedded operations: one list of
rows per table, in database order. -/
structure DB where
  users : List User
  categories : List Category
  expenses : List Expense
  generalBudgets : List GeneralBudget
  categoryBudgets : List CategoryBudget
  notifications : List Notification
  groupMembers : List GroupMember
  groupExpenses : List GroupExpense
  expenseSplits : List ExpenseSplit
  groupDebts : List GroupDebt
  deriving DecidableEq, Repr

/-- Error taxonomy of the routers, keyed by the HTTP status each handler
raises: 404 (`notFound`), 400 (`badRequest`), 403 (`forbidden`). -/
inductive Err where
  | notFound
  | badRequest
  | forbidden
  deriving DecidableEq, Repr

/-- `threshold_checks.check_budget` — the f-string
`"You\x27ve exceeded your budget of {limit} by {exceed}."`.  Number
rendering uses `toString` on `ℚ` in place of Python float formatting;
this keeps the messages deterministic and injective in their numeric
arguments, which is all the text-equality dedup depends on. -/
def generalExceededMessage (limit exceed : ℚ) : String :=
  "You\x27ve exceeded your budget of " ++ toString limit ++ " by " ++ toString exceed ++ "."

/-- `threshold_checks.check_category_budget` — the f-string
`"You\x27ve exceeded your budget for category \x27{name}\x27 by
{exceed:.2f}. Your limit was {limit}."`. -/
def categoryExceededMessage (name : String) (exceed limit : ℚ) : String :=
  "You\x27ve exceeded your budget for category \x27" ++ name ++ "\x27 by "
    ++ toString exceed ++ ". Your limit was " ++ toString limit ++ "."

/-- `budget_monitoring.check_and_deactivate_expired_budgets` — the f-string
`"Your budget (ID: {id}) has been deactivated because its end date has
passed."`. -/
def deactivationMessage (budgetId : Nat) : String :=
  "Your budget (ID: " ++ toString budgetId ++ ") has been deactivated because its end date has passed."

/-- `group_expenses.create_and_split_group_expense` — the f-string
`"You owe {username} {amount} for \x27{description}\x27"`, used both for the
`GroupDebt.description` and the debtor notification. -/
def youOweMessage (username : String) (amount : ℚ) (description : String) : String :=
  "You owe " ++ username ++ " " ++ toString amount ++ " for \x27" ++ description ++ "\x27"

/-- The query `db.query(GeneralBudget).filter(user_id == uid, status ==
"active")`, used by every general-budget route and by `check_budget`. -/
def activeGeneralBudgets (uid : Nat) (db : DB) : List GeneralBudget :=
  db.generalBudgets.filter (fun b => b.user_id == uid && b.status == "active")

/-- The query `db.query(CategoryBudget).filter(user_id == uid, status ==
"active")` of `check_category_budget`. -/
def activeCategoryBudgets (uid : Nat) (db : DB) : List CategoryBudget :=
  db.categoryBudgets.filter (fun b => b.user_id == uid && b.status == "active")

/-- The list comprehension
`[e.amount for e in budget.owner.expenses if start_date <= e.date <=
end_date]` shared by `get_general_budget_status`,
`retrieve_category_budget_status` and `check_budget`:
all the owner\x27s expenses whose date lies in the window, with no
category filter. -/
def windowAmounts (startD endD : Int) (uid : Nat) (expenses : List Expense) : List ℚ :=
  (expenses.filter
    (fun e => e.user_id == uid && decide (startD ≤ e.date) && decide (e.date ≤ endD))).map
    (fun e => e.amount)

/-- `get_general_budget_status` / `check_budget`:
`remaining_amount = budget.amount_limit - sum(expenses)`. -/
def generalBudgetRemaining (b : GeneralBudget) (expenses : List Expense) : ℚ :=
  b.amount_limit - (windowAmounts b.start_date b.end_date b.user_id expenses).sum

/-- `retrieve_category_budget_status`: the same window sum over
`budget.owner.expenses` — the source applies no `category_id` filter
here. -/
def categoryStatusRemaining (b : CategoryBudget) (expenses : List Expense) : ℚ :=
  b.amount_limit - (windowAmounts b.start_date b.end_date b.user_id expenses).sum

/-- `retrieve_category_budget_status` — the conditional expression
computing `status_sent` (`0.2` is the exact rational `1/5`). -/
def statusSent (remaining limit : ℚ) : String :=
  if limit * (1/5) ≤ remaining then "within limits"
  else if 0 < remaining then "nearing threshold"
  else "exceeded"

/-- Response model `CategoryBudgetStatus` of
`app/schemas/category_budget.py`. -/
structure CategoryBudgetStatusResponse where
  status : String
  remaining_amount : ℚ
  category_name : String
  deriving DecidableEq, Repr

/-- `retrieve_category_budget_status` (`GET /{category_name}/status`):
look up the category by owner and name, then the first active budget for
it, and report the window remaining and the three-tier status string. -/
def retrieveCategoryBudgetStatus (uid : Nat) (categoryName : String) (db : DB) :
    Except Err CategoryBudgetStatusResponse :=
  match (db.categories.filter (fun c => c.user_id == uid && c.name == categoryName)).head? with
  | none => .error .notFound
  | some category =>
    match (db.categoryBudgets.filter
        (fun b => b.user_id == uid && b.category_id == category.id && b.status == "active")).head? with
    | none => .error .notFound
    | some budget =>
      let remaining := categoryStatusRemaining budget db.expenses
      .ok ⟨statusSent remaining budget.amount_limit, remaining, categoryName⟩

/-- The dedup query shared by every notification-inserting flow:
`db.query(Notification).filter(user_id == uid, message == m, is_read ==
False).first()` is truthy. -/
def hasUnread (uid : Nat) (message : String) (ns : List Notification) : Bool :=
  ns.any (fun n => n.user_id == uid && n.message == message && n.is_read == false)

/-- Surrogate primary key for a freshly inserted notification row. -/
def freshNotificationId (db : DB) : Nat := db.notifications.length + 1

/-- `threshold_checks.check_budget(user_id)`: take the *first* active
general budget of the user, compute the window remaining over the
owner\x27s expenses, and when it is negative insert (dedup-guarded) an
ALERT notification and push the message.  Returns the new state and the
list of pushed messages. -/
def checkBudget (uid : Nat) (db : DB) : DB × List String :=
  match (activeGeneralBudgets uid db).head? with
  | none => (db, [])
  | some budget =>
    let remaining := generalBudgetRemaining budget db.expenses
    if remaining < 0 then
      let message := generalExceededMessage budget.amount_limit (abs remaining)
      if hasUnread uid message db.notifications then (db, [])
      else
        ({ db with notifications := db.notifications ++
            [⟨freshNotificationId db, uid, some .ALERT, message, false, 0⟩] },
         [message])
    else (db, [])

/-- One step of building `category_totals`:
`category_totals[cid] = category_totals.get(cid, 0) + amount`, on an
insertion-ordered association list (as a Python dict is). -/
def bumpTotal (acc : List (Nat × ℚ)) (cid : Nat) (a : ℚ) : List (Nat × ℚ) :=
  if acc.any (fun p => p.1 == cid) then
    acc.map (fun p => if p.1 = cid then (p.1, p.2 + a) else p)
  else acc ++ [(cid, a)]

/-- `check_category_budget` — the `category_totals` dict built by folding
over `user_expenses`. -/
def categoryTotals (expenses : List Expense) : List (Nat × ℚ) :=
  expenses.foldl (fun acc e => bumpTotal acc e.category_id e.amount) []

/-- The dict comprehension `{budget.category_id: budget for budget in
active_budgets}`: when several active budgets share a category, the last
one wins. -/
def lookupLastBudget (budgets : List CategoryBudget) (cid : Nat) : Option CategoryBudget :=
  (budgets.filter (fun b => b.category_id == cid)).getLast?

/-- `check_category_budget` — the category-name lookup feeding the
message (`"Unknown Category"` when the row is absent). -/
def categoryNameOf (uid cid : Nat) (db : DB) : String :=
  match (db.categories.filter (fun c => c.user_id == uid && c.id == cid)).head? with
  | some c => c.name
  | none => "Unknown Category"

/-- `check_category_budget` — the `user_expenses` query: all of the
user\x27s expenses whose `category_id` is among the active budgets\x27
categories.  Note: no date filter. -/
def thresholdUserExpenses (uid : Nat) (activeBudgets : List CategoryBudget)
    (expenses : List Expense) : List Expense :=
  expenses.filter
    (fun e => e.user_id == uid && activeBudgets.any (fun b => b.category_id == e.category_id))

/-- One iteration of the `for category_id, total_expense in
category_totals.items()` loop of `check_category_budget`: recompute
`remaining_budget`, and when negative insert (dedup-guarded) an ALERT
notification with the category message and push it. -/
def checkCategoryBudgetStep (uid : Nat) (activeBudgets : List CategoryBudget) (db : DB)
    (st : DB × List String) (item : Nat × ℚ) : DB × List String :=
  match lookupLastBudget activeBudgets item.1 with
  | none => st
  | some budget =>
    let remaining := budget.amount_limit - item.2
    if remaining < 0 then
      let message :=
        categoryExceededMessage (categoryNameOf uid budget.category_id db)
          (abs remaining) budget.amount_limit
      if hasUnread uid message st.1.notifications then st
      else
        ({ st.1 with notifications := st.1.notifications ++
            [⟨freshNotificationId st.1, uid, some .ALERT, message, false, 0⟩] },
         st.2 ++ [message])
    else st

/-- `threshold_checks.check_category_budget(user_id)`: group the
user\x27s expenses (no date filter) by category over the active category
budgets, and for each category whose total exceeds its (last) active
budget\x27s limit, dispatch a dedup-guarded ALERT notification. -/
def checkCategoryBudget (uid : Nat) (db : DB) : DB × List String :=
  let activeBudgets := activeCategoryBudgets uid db
  if activeBudgets.isEmpty then (db, [])
  else
    let totals := categoryTotals (thresholdUserExpenses uid activeBudgets db.expenses)
    totals.foldl (checkCategoryBudgetStep uid activeBudgets db) (db, [])

/-- `app/schemas/budget.py` — `GeneralBudgetCreate` / `GeneralBudgetUpdate`
(all three fields required, `amount_limit` an unconstrained number). -/
structure GeneralBudgetData where
  amount_limit : ℚ
  start_date : Int
  end_date : Int
  deriving DecidableEq, Repr

/-- `app/schemas/category_budget.py` — `CategoryBudgetCreate`. -/
structure CategoryBudgetCreateData where
  name : String
  amount_limit : ℚ
  start_date : Int
  end_date : Int
  deriving DecidableEq, Repr

/-- `app/schemas/category_budget.py` — `CategoryBudgetUpdate` (all fields
optional; `model_dump(exclude_unset=True)` applies only the set ones). -/
structure CategoryBudgetUpdateData where
  amount_limit : Option ℚ
  start_date : Option Int
  end_date : Option Int
  deriving DecidableEq, Repr

/-- The interval-overlap filter of `set_general_budget` /
`update_general_budget`: `start_date <= new.end_date AND end_date >=
new.start_date` over the user\x27s active general budgets. -/
def overlapsActiveGeneral (uid : Nat) (startD endD : Int) (db : DB) : Bool :=
  (activeGeneralBudgets uid db).any
    (fun b => decide (b.start_date ≤ endD) && decide (startD ≤ b.end_date))

/-- `set_general_budget` — `db.query(func.sum(CategoryBudget.amount_limit))
.filter(user, active).scalar() or 0.0`. -/
def totalActiveCategoryLimit (uid : Nat) (db : DB) : ℚ :=
  ((activeCategoryBudgets uid db).map (fun b => b.amount_limit)).sum

/-- Surrogate primary key for a freshly inserted general budget row. -/
def freshGeneralBudgetId (db : DB) : Nat := db.generalBudgets.length + 1

/-- Surrogate primary key for a freshly inserted category budget row. -/
def freshCategoryBudgetId (db : DB) : Nat := db.categoryBudgets.length + 1

/-- `set_general_budget` (`POST /budget/`): reject 400 on a window
overlapping an active general budget; reject 403 when `amount_limit` is
below the sum of the active category-budget limits; otherwise insert the
new budget (status defaults to `"active"`). -/
def setGeneralBudget (uid : Nat) (data : GeneralBudgetData) (db : DB) : Except Err DB :=
  if overlapsActiveGeneral uid data.start_date data.end_date db then .error .badRequest
  else if data.amount_limit < totalActiveCategoryLimit uid db then .error .forbidden
  else .ok { db with generalBudgets := db.generalBudgets ++
    [⟨freshGeneralBudgetId db, data.amount_limit, data.start_date, data.end_date, uid, "active"⟩] }

/-- `c.toLower` character by character: the semantics of SQL
`ILIKE \x27%budget%\x27` is case-insensitive substring containment. -/
def lowerChars (s : String) : List Char := s.toList.map Char.toLower

/-- Does the second list start with the first? -/
def beginsWith : List Char → List Char → Bool
  | [], _ => true
  | _ :: _, [] => false
  | p :: ps, c :: cs => p == c && beginsWith ps cs

/-- Substring containment on character lists. -/
def containsChars (pat : List Char) : List Char → Bool
  | [] => pat.isEmpty
  | c :: cs => beginsWith pat (c :: cs) || containsChars pat cs

/-- `Notification.message.ilike("%budget%")`: the message contains the
substring `"budget"` case-insensitively. -/
def messageMentionsBudget (m : String) : Bool :=
  containsChars (lowerChars "budget") (lowerChars m)

/-- The bulk update shared by `update_general_budget`,
`deactivate_general_budget` and `delete_general_budget`:
`UPDATE notifications SET is_read = true WHERE user_id = uid AND message
ILIKE \x27%budget%\x27 AND is_read = false`; every other row is left
unchanged. -/
def markBudgetNotificationsRead (uid : Nat) (ns : List Notification) : List Notification :=
  ns.map (fun n =>
    if n.user_id == uid && messageMentionsBudget n.message && n.is_read == false then
      { n with is_read := true }
    else n)

/-- `update_general_budget` (`PUT /budget/`): 404 without an active
budget; 400 when the new dates overlap *another* active budget; else mark
the budget-related unread notifications read and overwrite the three
fields of the (first) active budget. -/
def updateGeneralBudget (uid : Nat) (data : GeneralBudgetData) (db : DB) : Except Err DB :=
  match (activeGeneralBudgets uid db).head? with
  | none => .error .notFound
  | some budget =>
    if (activeGeneralBudgets uid db).any
        (fun b => b.id != budget.id && decide (b.start_date ≤ data.end_date)
          && decide (data.start_date ≤ b.end_date)) then
      .error .badRequest
    else
      .ok { db with
        notifications := markBudgetNotificationsRead uid db.notifications,
        generalBudgets := db.generalBudgets.map (fun b =>
          if b.id == budget.id then
            { b with amount_limit := data.amount_limit,
                     start_date := data.start_date, end_date := data.end_date }
          else b) }

/-- `deactivate_general_budget` (`POST /budget/deactivate`): 404 without
an active budget; else mark the budget-related unread notifications read
and set the (first) active budget\x27s status to `"deactivated"`. -/
def deactivateGeneralBudget (uid : Nat) (db : DB) : Except Err DB :=
  match (activeGeneralBudgets uid db).head? with
  | none => .error .notFound
  | some budget =>
    .ok { db with
      notifications := markBudgetNotificationsRead uid db.notifications,
      generalBudgets := db.generalBudgets.map (fun b =>
        if b.id == budget.id then { b with status := "deactivated" } else b) }

/-- `delete_general_budget` (`DELETE /budget/{budget_id}`): 404 when the
row is absent or not owned; 400 when it is not active; else mark the
budget-related unread notifications read and delete the row. -/
def deleteGeneralBudget (uid budgetId : Nat) (db : DB) : Except Err DB :=
  match (db.generalBudgets.filter (fun b => b.user_id == uid && b.id == budgetId)).head? with
  | none => .error .notFound
  | some budget =>
    if budget.status != "active" then .error .badRequest
    else
      .ok { db with
        notifications := markBudgetNotificationsRead uid db.notifications,
        generalBudgets := db.generalBudgets.filter (fun b => !(b.id == budgetId)) }

/-- `create_category_budget` (`POST /category-budget/`): 404 when the
named category is absent; 400 on a window overlapping an active budget of
the same category; otherwise insert.  The source performs *no*
general-budget consistency check here. -/
def createCategoryBudget (uid : Nat) (data : CategoryBudgetCreateData) (db : DB) :
    Except Err DB :=
  match (db.categories.filter (fun c => c.user_id == uid && c.name == data.name)).head? with
  | none => .error .notFound
  | some category =>
    if (db.categoryBudgets.filter
        (fun b => b.user_id == uid && b.category_id == category.id && b.status == "active"
          && decide (b.start_date ≤ data.end_date)
          && decide (data.start_date ≤ b.end_date))).isEmpty then
      .ok { db with categoryBudgets := db.categoryBudgets ++
        [⟨freshCategoryBudgetId db, category.id, data.amount_limit,
          data.start_date, data.end_date, uid, "active"⟩] }
    else .error .badRequest

/-- `modify_category_budget` (`PUT /category-budget/{category_name}`):
404 when the category or its active budget is absent; otherwise apply the
set fields to the (first) active budget.  The source performs *no*
overlap check and *no* consistency check here. -/
def modifyCategoryBudget (uid : Nat) (categoryName : String)
    (data : CategoryBudgetUpdateData) (db : DB) : Except Err DB :=
  match (db.categories.filter (fun c => c.user_id == uid && c.name == categoryName)).head? with
  | none => .error .notFound
  | some category =>
    match (db.categoryBudgets.filter
        (fun b => b.user_id == uid && b.category_id == category.id
          && b.status == "active")).head? with
    | none => .error .notFound
    | some budget =>
      .ok { db with categoryBudgets := db.categoryBudgets.map (fun b =>
        if b.id == budget.id then
          { b with amount_limit := data.amount_limit.getD b.amount_limit,
                   start_date := data.start_date.getD b.start_date,
                   end_date := data.end_date.getD b.end_date }
        else b) }

/-- One iteration of the loop of
`budget_monitoring.check_and_deactivate_expired_budgets`, for one budget
of the snapshot: when `end_date < today`, set its status to
`"deactivated"` and insert (dedup-guarded) the deactivation notification.
The source constructs this `Notification` without passing a `type`, so
the inserted row carries `none`. -/
def expirySweepStep (today : Int) (db : DB) (budget : GeneralBudget) : DB :=
  if budget.end_date < today then
    let db1 := { db with generalBudgets := db.generalBudgets.map (fun b =>
      if b.id == budget.id then { b with status := "deactivated" } else b) }
    let message := deactivationMessage budget.id
    if hasUnread budget.user_id message db1.notifications then db1
    else { db1 with notifications := db1.notifications ++
      [⟨freshNotificationId db1, budget.user_id, none, message, false, 0⟩] }
  else db

/-- `check_and_deactivate_expired_budgets()`: snapshot all active general
budgets (all users), then deactivate-and-notify each expired one. -/
def checkAndDeactivateExpiredBudgets (today : Int) (db : DB) : DB :=
  (db.generalBudgets.filter (fun b => b.status == "active")).foldl (expirySweepStep today) db

/-- Thirty days in seconds, the retention threshold `timedelta(days=30)`
of `delete_old_notifications`. -/
def thirtyDays : Int := 2592000

/-- `app/main.py` — `delete_old_notifications()`: delete every
notification with `created_at < now - 30 days`, regardless of read
state. -/
def deleteOldNotifications (now : Int) (db : DB) : DB :=
  { db with notifications :=
    db.notifications.filter (fun n => !(decide (n.created_at < now - thirtyDays))) }

/-- `app/schemas/groups.py` — `ExpenseSplitCreate`. -/
structure ExpenseSplitCreateData where
  user_id : Nat
  amount : ℚ
  deriving DecidableEq, Repr

/-- The active-membership query
`db.query(GroupMember).filter_by(user_id, group_id, status="active")`. -/
def isActiveMember (uid gid : Nat) (db : DB) : Bool :=
  db.groupMembers.any (fun m => m.user_id == uid && m.group_id == gid && m.status == "active")

/-- The authenticated user\x27s `username`. -/
def usernameOf (uid : Nat) (db : DB) : String :=
  match (db.users.filter (fun u => u.id == uid)).head? with
  | some u => u.username
  | none => ""

/-- Surrogate primary key for a freshly inserted group expense row. -/
def freshGroupExpenseId (db : DB) : Nat := db.groupExpenses.length + 1

/-- The body of the `for split in splits` loop of
`create_and_split_group_expense` on the success path: add the
`ExpenseSplit` row and, for a split whose user is not the payer, a
`GroupDebt` and a debtor `Notification` (again constructed without a
`type`). -/
def splitCommitStep (expId gid payerId : Nat) (username description : String)
    (db : DB) (s : ExpenseSplitCreateData) : DB :=
  let db2 := { db with expenseSplits := db.expenseSplits ++
    [⟨db.expenseSplits.length + 1, expId, s.user_id, s.amount⟩] }
  if s.user_id != payerId then
    let msg := youOweMessage username s.amount description
    { db2 with
      groupDebts := db2.groupDebts ++
        [⟨db2.groupDebts.length + 1, gid, s.user_id, payerId, s.amount, msg, "active"⟩],
      notifications := db2.notifications ++
        [⟨freshNotificationId db2, s.user_id, none, msg, false, 0⟩] }
  else db2

/-- `group_expenses.create_and_split_group_expense`
(`POST /{group_id}/expenses`).  Returns the error (if any) together with
the state of *persisted* rows.  The source commits the new `GroupExpense`
*before* validating the splits, so on a validation failure (split total
mismatch, or a split user who is not an active member) the expense row
persists while the pending splits/debts/notifications — added to the
session but only committed after the loop — are discarded. -/
def createAndSplitGroupExpense (gid uid : Nat) (amount : ℚ) (description : String)
    (splits : List ExpenseSplitCreateData) (db : DB) : Option Err × DB :=
  if !(isActiveMember uid gid db) then (some .forbidden, db)
  else
    let newExpense : GroupExpense := ⟨freshGroupExpenseId db, gid, uid, amount, description⟩
    let db1 := { db with groupExpenses := db.groupExpenses ++ [newExpense] }
    if (splits.map (fun s => s.amount)).sum != amount then (some .badRequest, db1)
    else if splits.all (fun s => isActiveMember s.user_id gid db1) then
      (none, splits.foldl
        (splitCommitStep newExpense.id gid uid (usernameOf uid db1) description) db1)
    else (some .badRequest, db1)

/-- First-match lookup in an association list, used to state what
`categoryTotals` computes. -/
def lookupTotal : List (Nat × ℚ) → Nat → Option ℚ
  | [], _ => none
  | p :: t, cid => if p.1 = cid then some p.2 else lookupTotal t cid

/-- The *specification\x27s* remaining-amount formula for a category
budget, written from the claim\x27s words for comparison with the source:
`amount_limit − Σ` over exactly the owner\x27s expenses whose date lies
in `[start_date, end_date]` inclusive *and* whose `category_id` equals
the budget\x27s category. -/
def specCategoryRemaining (b : CategoryBudget) (expenses : List Expense) : ℚ :=
  b.amount_limit - ((expenses.filter (fun e =>
      e.user_id == b.user_id && decide (b.start_date ≤ e.date)
        && decide (e.date ≤ b.end_date) && e.category_id == b.category_id)).map
    (fun e => e.amount)).sum

/-- An otherwise-empty database state. -/
def emptyDB : DB := ⟨[], [], [], [], [], [], [], [], [], []⟩

/-- Counterexample state for the remaining-amount claim: one active
category budget (category 10, window `[10, 20]`, limit 3) and a single
expense of 8 in that category dated 25 — outside the window. -/
def dbOutOfWindow : DB :=
  { emptyDB with
    categories := [⟨10, 1, "food"⟩],
    categoryBudgets := [⟨1, 10, 3, 10, 20, 1, "active"⟩],
    expenses := [⟨1, 8, 25, 1, 10⟩] }

/-- State for the duplicate-notification counterexample: two users who
are both active members of group 1. -/
def dbTwoMembers : DB :=
  { emptyDB with
    users := [⟨1, "alice"⟩, ⟨2, "bob"⟩],
    groupMembers := [⟨1, 1, 1, "active"⟩, ⟨2, 2, 1, "active"⟩] }

/-- Counterexample state for the consistency guard: active general budget
of 500, active category budgets summing to 450 (for category 20), and a
free category `"food"` (id 10) with no active budget. -/
def dbConsistency : DB :=
  { emptyDB with
    categories := [⟨10, 1, "food"⟩],
    generalBudgets := [⟨1, 500, 0, 100, 1, "active"⟩],
    categoryBudgets := [⟨1, 20, 450, 0, 100, 1, "active"⟩] }

/-- Counterexample state for the overlap guard on category-budget update:
two active budgets for the same category with disjoint windows `[0, 31]`
and `[40, 70]`. -/
def dbTwoWindows : DB :=
  { emptyDB with
    categories := [⟨10, 1, "food"⟩],
    categoryBudgets := [⟨1, 10, 100, 0, 31, 1, "active"⟩, ⟨2, 10, 100, 40, 70, 1, "active"⟩] }

/-- Failing state for the expiry sweep: budget 1 expired (end date 9,
today 10), budget 2 ending today. -/
def dbExpired : DB :=
  { emptyDB with
    generalBudgets := [⟨1, 100, 0, 9, 1, "active"⟩, ⟨2, 50, 0, 10, 1, "active"⟩] }

/-- Counterexample state for the every-active-budget claim: two active
general budgets with disjoint windows, both exceeded. -/
def dbTwoBudgets : DB :=
  { emptyDB with
    generalBudgets := [⟨1, 100, 0, 10, 1, "active"⟩, ⟨2, 50, 20, 30, 1, "active"⟩],
    expenses := [⟨1, 200, 5, 1, 77⟩, ⟨2, 100, 25, 1, 77⟩] }

/-- Counterexample state for the three-tier status claim: an active
category budget with `amount_limit = 0` (the schema puts no bound on
`amount_limit`) and no expenses. -/
def dbZeroLimit : DB :=
  { emptyDB with
    categories := [⟨10, 1, "food"⟩],
    categoryBudgets := [⟨1, 10, 0, 0, 50, 1, "active"⟩] }

/-- Witness state for the retention sweep: one notification 31 days old,
one 29 days old (in seconds, with `now = 2678400 + 100`). -/
def dbRetention : DB :=
  { emptyDB with
    notifications := [⟨1, 1, some .ALERT, "old", false, 0⟩,
                      ⟨2, 1, some .ALERT, "new", true, 172800⟩] }

/-- Witness state for the mark-read side effect: an active general
budget, a matching unread notification (message mentioning `BUDGET`), a
non-matching one, and one belonging to another user. -/
def dbMarkRead : DB :=
  { emptyDB with
    generalBudgets := [⟨1, 100, 0, 10, 1, "active"⟩],
    notifications := [⟨1, 1, some .ALERT, "You exceeded your BUDGET", false, 0⟩,
                      ⟨2, 1, some .GROUP_DEBT, "group invite", false, 0⟩,
                      ⟨3, 2, some .ALERT, "budget news", false, 0⟩,
                      ⟨4, 1, some .ALERT, "budget done", true, 0⟩] }

/-- Witness state for the split-validation claim: payer 1 and user 2 are
active members of group 1. -/
def dbSplitGroup : DB :=
  { emptyDB with
    users := [⟨1, "carol"⟩, ⟨2, "dave"⟩],
    groupMembers := [⟨1, 1, 1, "active"⟩, ⟨2, 2, 1, "active"⟩] }

/-- Witness state for the threshold-check claim: two active category
budgets (categories 10 and 20), both exceeded by dated expenses, plus an
exceeded (first) active general budget. -/
def dbThreshold : DB :=
  { emptyDB with
    categories := [⟨10, 1, "food"⟩, ⟨20, 1, "rent"⟩],
    generalBudgets := [⟨1, 100, 0, 10, 1, "active"⟩],
    categoryBudgets := [⟨1, 10, 30, 0, 50, 1, "active"⟩, ⟨2, 20, 40, 0, 50, 1, "active"⟩],
    expenses := [⟨1, 50, 5, 1, 10⟩, ⟨2, 90, 6, 1, 20⟩] }

/-- Witness state for the overlap guard: an active general budget
`[0, 100]`, a category `"food"` with an active budget `[0, 31]`. -/
def dbOverlapWitness : DB :=
  { emptyDB with
    categories := [⟨10, 1, "food"⟩],
    generalBudgets := [⟨1, 500, 0, 100, 1, "active"⟩],
    categoryBudgets := [⟨1, 10, 50, 0, 31, 1, "active"⟩] }

/-- The state after a successful `update_general_budget` on
`dbMarkRead`. -/
def dbMarkReadUpdated : DB :=
  match updateGeneralBudget 1 ⟨200, 0, 10⟩ dbMarkRead with
  | .ok d => d
  | .error _ => emptyDB

/-- The state after a successful `deactivate_general_budget` on
`dbMarkRead`. -/
def dbMarkReadDeactivated : DB :=
  match deactivateGeneralBudget 1 dbMarkRead with
  | .ok d => d
  | .error _ => emptyDB

/-- The state after a successful `delete_general_budget` on
`dbMarkRead`. -/
def dbMarkReadDeleted : DB :=
  match deleteGeneralBudget 1 1 dbMarkRead with
  | .ok d => d
  | .error _ => emptyDB

/-! ## Association-list lemmas for `categoryTotals` -/

theorem lookupTotal_map_same (l : List (Nat × ℚ)) (cid : Nat) (a : ℚ) :
    lookupTotal (l.map (fun q => if q.1 = cid then (q.1, q.2 + a) else q)) cid
      = (lookupTotal l cid).map (fun x => x + a) := by
  induction l with
  | nil => simp [lookupTotal]
  | cons p t ih =>
    by_cases hp : p.1 = cid
    · simp [lookupTotal, hp]
    · simp [lookupTotal, hp, ih]

theorem lookupTotal_map_ne (l : List (Nat × ℚ)) (cid cid' : Nat) (a : ℚ) (h : cid' ≠ cid) :
    lookupTotal (l.map (fun q => if q.1 = cid then (q.1, q.2 + a) else q)) cid'
      = lookupTotal l cid' := by
  induction l with
  | nil => simp [lookupTotal]
  | cons p t ih =>
    by_cases hp : p.1 = cid
    · have hp2 : p.1 ≠ cid' := by rw [hp]; exact Ne.symm h
      simp [lookupTotal, hp, hp2, Ne.symm h, ih]
    · by_cases hp3 : p.1 = cid'
      · simp [lookupTotal, hp, hp3, h]
      · simp [lookupTotal, hp, hp3, ih]

theorem lookupTotal_append_of_some (l l2 : List (Nat × ℚ)) (cid : Nat) (q : ℚ)
    (h : lookupTotal l cid = some q) : lookupTotal (l ++ l2) cid = some q := by
  induction l with
  | nil => simp [lookupTotal] at h
  | cons p t ih =>
    by_cases hp : p.1 = cid
    · simp only [lookupTotal, if_pos hp] at h
      simp [lookupTotal, hp, h]
    · simp only [lookupTotal, if_neg hp] at h
      simp [lookupTotal, hp, ih h]

theorem lookupTotal_append_of_none (l l2 : List (Nat × ℚ)) (cid : Nat)
    (h : lookupTotal l cid = none) : lookupTotal (l ++ l2) cid = lookupTotal l2 cid := by
  induction l with
  | nil => simp
  | cons p t ih =>
    by_cases hp : p.1 = cid
    · simp [lookupTotal, hp] at h
    · simp only [lookupTotal, if_neg hp] at h
      simp [lookupTotal, hp, ih h]

theorem any_eq_isSome_lookupTotal (l : List (Nat × ℚ)) (cid : Nat) :
    l.any (fun q => q.1 == cid) = (lookupTotal l cid).isSome := by
  induction l with
  | nil => simp [lookupTotal]
  | cons p t ih =>
    by_cases hp : p.1 = cid
    · simp [lookupTotal, hp]
    · simp [lookupTotal, hp, ih]

theorem lookupTotal_bumpTotal_same (acc : List (Nat × ℚ)) (cid : Nat) (a : ℚ) :
    lookupTotal (bumpTotal acc cid a) cid = some ((lookupTotal acc cid).getD 0 + a) := by
  unfold bumpTotal
  cases hany : acc.any (fun q => q.1 == cid) with
  | true =>
    rw [if_pos rfl, lookupTotal_map_same]
    rw [any_eq_isSome_lookupTotal] at hany
    cases h : lookupTotal acc cid with
    | none => rw [h] at hany; simp at hany
    | some q => simp [h]
  | false =>
    rw [if_neg Bool.false_ne_true]
    rw [any_eq_isSome_lookupTotal] at hany
    cases h : lookupTotal acc cid with
    | none =>
      rw [lookupTotal_append_of_none _ _ _ h]
      simp [lookupTotal]
    | some q => rw [h] at hany; simp at hany

theorem lookupTotal_bumpTotal_ne (acc : List (Nat × ℚ)) (cid cid' : Nat) (a : ℚ)
    (h : cid' ≠ cid) :
    lookupTotal (bumpTotal acc cid a) cid' = lookupTotal acc cid' := by
  unfold bumpTotal
  cases hany : acc.any (fun q => q.1 == cid) with
  | true => rw [if_pos rfl, lookupTotal_map_ne _ _ _ _ h]
  | false =>
    rw [if_neg Bool.false_ne_true]
    cases h2 : lookupTotal acc cid' with
    | some q => rw [lookupTotal_append_of_some _ _ _ _ h2]
    | none =>
      rw [lookupTotal_append_of_none _ _ _ h2]
      simp [lookupTotal, Ne.symm h]

theorem lookupTotal_foldl (es : List Expense) (acc : List (Nat × ℚ)) (cid : Nat) :
    lookupTotal (es.foldl (fun a e => bumpTotal a e.category_id e.amount) acc) cid =
      match lookupTotal acc cid with
      | some q => some (q +
          ((es.filter (fun e => e.category_id == cid)).map (fun e => e.amount)).sum)
      | none =>
        if (es.filter (fun e => e.category_id == cid)).isEmpty then none
        else some (((es.filter (fun e => e.category_id == cid)).map (fun e => e.amount)).sum) := by
  induction es generalizing acc with
  | nil =>
    cases h : lookupTotal acc cid with
    | none => simp [h]
    | some q => simp [h]
  | cons e es ih =>
    simp only [List.foldl_cons]
    rw [ih]
    by_cases he : e.category_id = cid
    · rw [he, lookupTotal_bumpTotal_same]
      have hfe : (e :: es).filter (fun x => x.category_id == cid)
          = e :: es.filter (fun x => x.category_id == cid) := by
        simp [List.filter_cons, he]
      cases h : lookupTotal acc cid with
      | none => simp [h, hfe]
      | some q =>
        simp only [h, Option.getD_some, hfe, List.isEmpty_cons, List.map_cons, List.sum_cons]
        rw [Option.some.injEq]
        ring
    · rw [lookupTotal_bumpTotal_ne _ _ _ _ (Ne.symm he)]
      have hfe : (e :: es).filter (fun x => x.category_id == cid)
          = es.filter (fun x => x.category_id == cid) := by
        simp [List.filter_cons, he]
      rw [hfe]

theorem lookupTotal_categoryTotals (es : List Expense) (cid : Nat) :
    lookupTotal (categoryTotals es) cid =
      if (es.filter (fun e => e.category_id == cid)).isEmpty then none
      else some (((es.filter (fun e => e.category_id == cid)).map (fun e => e.amount)).sum) := by
  have := lookupTotal_foldl es [] cid
  simpa [categoryTotals, lookupTotal] using this

theorem mem_of_lookupTotal (l : List (Nat × ℚ)) (cid : Nat) (q : ℚ)
    (h : lookupTotal l cid = some q) : (cid, q) ∈ l := by
  induction l with
  | nil => simp [lookupTotal] at h
  | cons p t ih =>
    by_cases hp : p.1 = cid
    · simp only [lookupTotal, if_pos hp] at h
      have hpq : (cid, q) = p := by
        cases p
        simp_all
      rw [hpq]
      exact List.mem_cons_self _ _
    · simp only [lookupTotal, if_neg hp] at h
      exact List.mem_cons_of_mem _ (ih h)

/-- Permutation invariance of a filtered-map sum. -/
theorem filter_map_sum_perm {α : Type} (p : α → Bool) (f : α → ℚ) (l l2 : List α)
    (h : l.Perm l2) : ((l.filter p).map f).sum = ((l2.filter p).map f).sum :=
  List.Perm.sum_eq (List.Perm.map f (List.Perm.filter p h))

/-! ## C1 — remaining-amount computation -/

/-- C1 counterexample.  In `dbOutOfWindow` the single active category
budget (category 10, window `[10, 20]`, limit 3) has no matching expense
inside its window, so the claim\x27s formula gives a remaining amount of
3 (the full limit).  Yet `check_category_budget` totals the category\x27s
expenses with no date filter (total 8, remaining −5) and even dispatches
an exceeded alert — the computed remaining does not equal the claim\x27s
formula. -/
theorem category_threshold_ignores_window :
    lookupTotal (categoryTotals (thresholdUserExpenses 1
        (activeCategoryBudgets 1 dbOutOfWindow) dbOutOfWindow.expenses)) 10 = some 8
    ∧ specCategoryRemaining ⟨1, 10, 3, 10, 20, 1, "active"⟩ dbOutOfWindow.expenses = 3
    ∧ dbOutOfWindow.categoryBudgets = [⟨1, 10, 3, 10, 20, 1, "active"⟩]
    ∧ (checkCategoryBudget 1 dbOutOfWindow).2 = [categoryExceededMessage "food" 5 3] :=
  of_decide_eq_true (by with_unfolding_all rfl)

/-- C1 (amended).  The general-budget remaining amount equals
`amount_limit − Σ` over exactly the owner\x27s expenses dated within
`[start_date, end_date]` inclusive, independent of expense order.  For
category budgets, the total that `check_category_budget` computes for a
category is the sum over *all* of the user\x27s expenses with that
`category_id` — the budget\x27s date window is ignored — and it, too, is
order independent. -/
theorem remaining_amount_formula (b : GeneralBudget) (cid : Nat)
    (es es' : List Expense) (h : es.Perm es') :
    generalBudgetRemaining b es
        = b.amount_limit - ((es.filter (fun e => e.user_id == b.user_id
            && decide (b.start_date ≤ e.date) && decide (e.date ≤ b.end_date))).map
          (fun e => e.amount)).sum
    ∧ generalBudgetRemaining b es = generalBudgetRemaining b es'
    ∧ lookupTotal (categoryTotals es) cid
        = (if (es.filter (fun e => e.category_id == cid)).isEmpty then none
           else some (((es.filter (fun e => e.category_id == cid)).map
              (fun e => e.amount)).sum))
    ∧ lookupTotal (categoryTotals es) cid = lookupTotal (categoryTotals es') cid := by
  refine ⟨rfl, ?_, lookupTotal_categoryTotals es cid, ?_⟩
  · unfold generalBudgetRemaining windowAmounts
    rw [filter_map_sum_perm _ _ _ _ h]
  · rw [lookupTotal_categoryTotals, lookupTotal_categoryTotals]
    have hsum := filter_map_sum_perm (fun e => e.category_id == cid)
      (fun e => e.amount) es es' h
    have hpf := h.filter (fun e => e.category_id == cid)
    cases hfe : es.filter (fun e => e.category_id == cid) with
    | nil =>
      rw [hfe] at hpf
      have hfe' : es'.filter (fun e => e.category_id == cid) = [] := hpf.symm.eq_nil
      rw [hfe']
    | cons x xs =>
      rw [hfe] at hpf
      obtain ⟨y, ys, hfe'⟩ : ∃ y ys, es'.filter (fun e => e.category_id == cid) = y :: ys := by
        cases hq : es'.filter (fun e => e.category_id == cid) with
        | nil =>
          rw [hq] at hpf
          exact absurd hpf.eq_nil (by simp)
        | cons y ys => exact ⟨y, ys, rfl⟩
      rw [hfe, hfe'] at hsum
      rw [hfe']
      simpa using hsum

/-- Witness for `remaining_amount_formula` at a concrete budget, category
and pair of permuted expense lists. -/
theorem remaining_amount_formula_witness :
    generalBudgetRemaining ⟨1, 100, 0, 10, 1, "active"⟩
        [⟨1, 40, 5, 1, 10⟩, ⟨2, 20, 6, 1, 10⟩]
      = generalBudgetRemaining ⟨1, 100, 0, 10, 1, "active"⟩
        [⟨2, 20, 6, 1, 10⟩, ⟨1, 40, 5, 1, 10⟩]
    ∧ lookupTotal (categoryTotals [⟨1, 40, 5, 1, 10⟩, ⟨2, 20, 6, 1, 10⟩]) 10 = some 60 := by
  have h := remaining_amount_formula ⟨1, 100, 0, 10, 1, "active"⟩ 10
    [⟨1, 40, 5, 1, 10⟩, ⟨2, 20, 6, 1, 10⟩] [⟨2, 20, 6, 1, 10⟩, ⟨1, 40, 5, 1, 10⟩] (by decide)
  refine ⟨h.2.1, ?_⟩
  rw [h.2.2.1]
  exact of_decide_eq_true (by with_unfolding_all rfl)

/-! ## C2 — notification dedup -/

/-- Updating only the `notifications` field leaves the budget table
untouched. -/
theorem activeGeneralBudgets_update_notifications (uid : Nat) (db : DB)
    (ns : List Notification) :
    activeGeneralBudgets uid { db with notifications := ns } = activeGeneralBudgets uid db :=
  rfl

/-- C2 counterexample.  The at-most-one-unread-per-message invariant does
not hold for the system: `create_and_split_group_expense` inserts debtor
notifications unconditionally, so splitting the same expense twice leaves
two unread notifications with the byte-identical message for user 2. -/
theorem duplicate_unread_notifications_possible :
    ((createAndSplitGroupExpense 1 1 50 "dinner" [⟨2, 50⟩]
        (createAndSplitGroupExpense 1 1 50 "dinner" [⟨2, 50⟩] dbTwoMembers).2).2.notifications.countP
      (fun n => n.user_id == 2 && n.message == youOweMessage "alice" 50 "dinner"
        && n.is_read == false)) = 2
    ∧ (createAndSplitGroupExpense 1 1 50 "dinner" [⟨2, 50⟩]
        (createAndSplitGroupExpense 1 1 50 "dinner" [⟨2, 50⟩] dbTwoMembers).2).1 = none :=
  of_decide_eq_true (by with_unfolding_all rfl)

/-- C2 (amended).  The threshold-check dispatcher itself never inserts a
duplicate: immediately rerunning `check_budget` with no intervening
change is a complete no-op — it inserts no notification and pushes no
message. -/
theorem threshold_check_idempotent (uid : Nat) (db : DB) :
    checkBudget uid (checkBudget uid db).1 = ((checkBudget uid db).1, []) := by
  by_cases h : (activeGeneralBudgets uid db).head? = none
  · simp [checkBudget, h]
  · obtain ⟨b, hb⟩ : ∃ b, (activeGeneralBudgets uid db).head? = some b := by
      cases hx : (activeGeneralBudgets uid db).head? with
      | none => exact absurd hx h
      | some b => exact ⟨b, rfl⟩
    by_cases hr : generalBudgetRemaining b db.expenses < 0
    · by_cases hu : hasUnread uid
        (generalExceededMessage b.amount_limit (abs (generalBudgetRemaining b db.expenses)))
        db.notifications
      · simp [checkBudget, hb, hr, hu]
      · have hu' : hasUnread uid
            (generalExceededMessage b.amount_limit (abs (generalBudgetRemaining b db.expenses)))
            db.notifications = false := by simpa using hu
        simp only [checkBudget, hb, if_pos hr, hu', Bool.false_eq_true, if_false]
        simp only [activeGeneralBudgets_update_notifications, hb]
        have hexp : ({ db with notifications := db.notifications ++
            [⟨freshNotificationId db, uid, some .ALERT,
              generalExceededMessage b.amount_limit
                (abs (generalBudgetRemaining b db.expenses)), false, 0⟩] } : DB).expenses
            = db.expenses := rfl
        rw [hexp, if_pos hr]
        have hu2 : hasUnread uid
            (generalExceededMessage b.amount_limit (abs (generalBudgetRemaining b db.expenses)))
            (db.notifications ++
              [⟨freshNotificationId db, uid, some .ALERT,
                generalExceededMessage b.amount_limit
                  (abs (generalBudgetRemaining b db.expenses)), false, 0⟩]) = true := by
          simp [hasUnread]
        rw [hu2]
        simp
    · simp [checkBudget, hb, hr]

/-! ## C3 — consistency guard -/

/-- C3 counterexample.  With an active general budget of 500 and active
category budgets summing to 450, creating a new category budget of 60
*succeeds*: `create_category_budget` performs no consistency check, so
the claimed rejection (450 + 60 > 500) does not happen. -/
theorem category_budget_sum_guard_missing :
    (createCategoryBudget 1 ⟨"food", 60, 0, 100⟩ dbConsistency).isOk = true
    ∧ totalActiveCategoryLimit 1 dbConsistency = 450
    ∧ activeGeneralBudgets 1 dbConsistency = [⟨1, 500, 0, 100, 1, "active"⟩]
    ∧ ¬((450 : ℚ) + 60 ≤ 500) :=
  of_decide_eq_true (by with_unfolding_all rfl)

/-- C3 (amended).  Only general-budget *creation* is guarded: after the
overlap check, `set_general_budget` rejects with 403 exactly when
`amount_limit` is below the sum of the user\x27s active category-budget
limits, and succeeds exactly when it is not (and no overlap exists).
Category-budget creation is not guarded at all: its success depends only
on the category existing and on the same-category overlap check. -/
theorem consistency_guard_characterization (uid : Nat) (data : GeneralBudgetData)
    (cdata : CategoryBudgetCreateData) (db : DB) :
    ((setGeneralBudget uid data db).isOk = true
      ↔ (overlapsActiveGeneral uid data.start_date data.end_date db = false
          ∧ totalActiveCategoryLimit uid db ≤ data.amount_limit))
    ∧ ((setGeneralBudget uid data db = Except.error Err.forbidden)
      ↔ (overlapsActiveGeneral uid data.start_date data.end_date db = false
          ∧ data.amount_limit < totalActiveCategoryLimit uid db))
    ∧ ((createCategoryBudget uid cdata db).isOk = true
      ↔ ∃ c, (db.categories.filter
            (fun x => x.user_id == uid && x.name == cdata.name)).head? = some c
          ∧ (db.categoryBudgets.filter
              (fun b => b.user_id == uid && b.category_id == c.id && b.status == "active"
                && decide (b.start_date ≤ cdata.end_date)
                && decide (cdata.start_date ≤ b.end_date))).isEmpty = true) := by
  refine ⟨?_, ?_, ?_⟩
  · by_cases ho : overlapsActiveGeneral uid data.start_date data.end_date db
    · apply iff_of_false
      · simp [setGeneralBudget, ho, Except.isOk, Except.toBool]
      · intro hcon
        have hx := hcon.1
        rw [ho] at hx
        simp at hx
    · have ho' : overlapsActiveGeneral uid data.start_date data.end_date db = false := by
        simpa using ho
      by_cases hl : data.amount_limit < totalActiveCategoryLimit uid db
      · apply iff_of_false
        · simp [setGeneralBudget, ho', hl, Except.isOk, Except.toBool]
        · intro hcon
          exact absurd hcon.2 (not_le.mpr hl)
      · apply iff_of_true
        · simp [setGeneralBudget, ho', hl, Except.isOk, Except.toBool]
        · exact ⟨ho', not_lt.mp hl⟩
  · by_cases ho : overlapsActiveGeneral uid data.start_date data.end_date db
    · apply iff_of_false
      · simp [setGeneralBudget, ho]
      · intro hcon
        have hx := hcon.1
        rw [ho] at hx
        simp at hx
    · have ho' : overlapsActiveGeneral uid data.start_date data.end_date db = false := by
        simpa using ho
      by_cases hl : data.amount_limit < totalActiveCategoryLimit uid db
      · apply iff_of_true
        · simp [setGeneralBudget, ho', hl]
        · exact ⟨ho', hl⟩
      · apply iff_of_false
        · simp [setGeneralBudget, ho', hl]
        · intro hcon
          exact absurd hcon.2 hl
  · cases hc : (db.categories.filter
        (fun x => x.user_id == uid && x.name == cdata.name)).head? with
    | none =>
      apply iff_of_false
      · simp [createCategoryBudget, hc, Except.isOk, Except.toBool]
      · rintro ⟨c, hc2, -⟩
        cases hc2
    | some c =>
      by_cases hemp : (db.categoryBudgets.filter
          (fun b => b.user_id == uid && b.category_id == c.id && b.status == "active"
            && decide (b.start_date ≤ cdata.end_date)
            && decide (cdata.start_date ≤ b.end_date))).isEmpty
      · apply iff_of_true
        · simp [createCategoryBudget, hc, hemp, Except.isOk, Except.toBool]
        · exact ⟨c, rfl, hemp⟩
      · have hemp' : (db.categoryBudgets.filter
            (fun b => b.user_id == uid && b.category_id == c.id && b.status == "active"
              && decide (b.start_date ≤ cdata.end_date)
              && decide (cdata.start_date ≤ b.end_date))).isEmpty = false := by
          simpa using hemp
        apply iff_of_false
        · simp [createCategoryBudget, hc, hemp', Except.isOk, Except.toBool]
        · rintro ⟨c2, hc2, he2⟩
          obtain rfl := Option.some.inj hc2
          exact hemp he2

/-! ## C4 — overlap guard -/

/-- C4 counterexample.  In `dbTwoWindows` the user has two active budgets
for category 10 with disjoint windows `[0, 31]` and `[40, 70]`.  Updating
the first one\x27s dates to `[35, 45]` — which overlaps the second —
*succeeds*: `modify_category_budget` performs no overlap check, leaving
two overlapping active budgets for the same category. -/
theorem category_budget_update_overlap_allowed :
    (modifyCategoryBudget 1 "food" ⟨none, some 35, some 45⟩ dbTwoWindows).isOk = true
    ∧ (match modifyCategoryBudget 1 "food" ⟨none, some 35, some 45⟩ dbTwoWindows with
       | .ok d => d.categoryBudgets.any (fun b1 => d.categoryBudgets.any (fun b2 =>
           b1.id != b2.id && b1.status == "active" && b2.status == "active"
             && b1.category_id == b2.category_id && b1.user_id == b2.user_id
             && decide (b1.start_date ≤ b2.end_date) && decide (b2.start_date ≤ b1.end_date)))
       | .error _ => false) = true :=
  of_decide_eq_true (by with_unfolding_all rfl)

/-- C4 (amended).  The interval-overlap guard is enforced on
general-budget creation, on general-budget update (against the *other*
active budgets), and on category-budget creation — but not on
category-budget update, whose success depends only on the category and
an active budget for it existing. -/
theorem overlap_guard_characterization (uid : Nat) (data : GeneralBudgetData)
    (cdata : CategoryBudgetCreateData) (cname : String)
    (udata : CategoryBudgetUpdateData) (db : DB) :
    ((setGeneralBudget uid data db = Except.error Err.badRequest)
      ↔ overlapsActiveGeneral uid data.start_date data.end_date db = true)
    ∧ (∀ b, (activeGeneralBudgets uid db).head? = some b →
        ((updateGeneralBudget uid data db = Except.error Err.badRequest)
          ↔ (activeGeneralBudgets uid db).any (fun b2 => b2.id != b.id
              && decide (b2.start_date ≤ data.end_date)
              && decide (data.start_date ≤ b2.end_date)) = true))
    ∧ (∀ c, (db.categories.filter
          (fun x => x.user_id == uid && x.name == cdata.name)).head? = some c →
        ((createCategoryBudget uid cdata db = Except.error Err.badRequest)
          ↔ ¬(db.categoryBudgets.filter
              (fun b => b.user_id == uid && b.category_id == c.id && b.status == "active"
                && decide (b.start_date ≤ cdata.end_date)
                && decide (cdata.start_date ≤ b.end_date))).isEmpty = true))
    ∧ ((modifyCategoryBudget uid cname udata db).isOk = true
      ↔ match (db.categories.filter
            (fun x => x.user_id == uid && x.name == cname)).head? with
        | none => False
        | some c => ((db.categoryBudgets.filter (fun x => x.user_id == uid
            && x.category_id == c.id && x.status == "active")).head?).isSome = true) := by
  refine ⟨?_, ?_, ?_, ?_⟩
  · by_cases ho : overlapsActiveGeneral uid data.start_date data.end_date db
    · simp [setGeneralBudget, ho]
    · have ho' : overlapsActiveGeneral uid data.start_date data.end_date db = false := by
        simpa using ho
      by_cases hl : data.amount_limit < totalActiveCategoryLimit uid db
      · simp [setGeneralBudget, ho', hl]
      · simp [setGeneralBudget, ho', hl]
  · intro b hb
    by_cases hconf : (activeGeneralBudgets uid db).any (fun b2 => b2.id != b.id
        && decide (b2.start_date ≤ data.end_date) && decide (data.start_date ≤ b2.end_date))
    · simp [updateGeneralBudget, hb, hconf]
    · have hconf' : (activeGeneralBudgets uid db).any (fun b2 => b2.id != b.id
          && decide (b2.start_date ≤ data.end_date)
          && decide (data.start_date ≤ b2.end_date)) = false := by simpa using hconf
      simp [updateGeneralBudget, hb, hconf']
  · intro c hc
    by_cases hemp : (db.categoryBudgets.filter
        (fun b => b.user_id == uid && b.category_id == c.id && b.status == "active"
          && decide (b.start_date ≤ cdata.end_date)
          && decide (cdata.start_date ≤ b.end_date))).isEmpty
    · simp [createCategoryBudget, hc, hemp]
    · have hemp' : (db.categoryBudgets.filter
          (fun b => b.user_id == uid && b.category_id == c.id && b.status == "active"
            && decide (b.start_date ≤ cdata.end_date)
            && decide (cdata.start_date ≤ b.end_date))).isEmpty = false := by
        simpa using hemp
      simp [createCategoryBudget, hc, hemp']
  · cases hc : (db.categories.filter
        (fun x => x.user_id == uid && x.name == cname)).head? with
    | none =>
      apply iff_of_false
      · simp [modifyCategoryBudget, hc, Except.isOk, Except.toBool]
      · intro hfalse
        exact hfalse
    | some c =>
      cases hb : (db.categoryBudgets.filter (fun x => x.user_id == uid
          && x.category_id == c.id && x.status == "active")).head? with
      | none =>
        apply iff_of_false
        · simp [modifyCategoryBudget, hc, hb, Except.isOk, Except.toBool]
        · show ¬((db.categoryBudgets.filter (fun x => x.user_id == uid
            && x.category_id == c.id && x.status == "active")).head?).isSome = true
          rw [hb]
          simp
      | some b =>
        apply iff_of_true
        · simp [modifyCategoryBudget, hc, hb, Except.isOk, Except.toBool]
        · show ((db.categoryBudgets.filter (fun x => x.user_id == uid
            && x.category_id == c.id && x.status == "active")).head?).isSome = true
          rw [hb]
          rfl

/-- Witness for `overlap_guard_characterization` on `dbOverlapWitness`:
the overlapping general-budget creation and the overlapping
category-budget creation are rejected, the category-budget update
succeeds with no overlap check, and a non-conflicting general-budget
update is not rejected. -/
theorem overlap_guard_characterization_witness :
    setGeneralBudget 1 ⟨100, 50, 150⟩ dbOverlapWitness = Except.error Err.badRequest
    ∧ createCategoryBudget 1 ⟨"food", 10, 20, 40⟩ dbOverlapWitness
        = Except.error Err.badRequest
    ∧ (modifyCategoryBudget 1 "food" ⟨some 60, none, none⟩ dbOverlapWitness).isOk = true
    ∧ ¬(updateGeneralBudget 1 ⟨600, 0, 100⟩ dbOverlapWitness
        = Except.error Err.badRequest) := by
  have h1 := overlap_guard_characterization 1 ⟨100, 50, 150⟩ ⟨"food", 10, 20, 40⟩ "food"
    ⟨some 60, none, none⟩ dbOverlapWitness
  have h2 := overlap_guard_characterization 1 ⟨600, 0, 100⟩ ⟨"food", 10, 20, 40⟩ "food"
    ⟨some 60, none, none⟩ dbOverlapWitness
  refine ⟨h1.1.mpr (by with_unfolding_all rfl), ?_, ?_, ?_⟩
  · exact (h1.2.2.1 ⟨10, 1, "food"⟩ (by with_unfolding_all rfl)).mpr
      (of_decide_eq_true (by with_unfolding_all rfl))
  · exact h1.2.2.2.mpr (by with_unfolding_all rfl)
  · intro heq
    have hx := (h2.2.1 ⟨1, 500, 0, 100, 1, "active"⟩ (by with_unfolding_all rfl)).mp heq
    have hfalse : (activeGeneralBudgets 1 dbOverlapWitness).any
        (fun b2 => b2.id != (1 : Nat)
          && decide (b2.start_date ≤ (100 : Int)) && decide ((0 : Int) ≤ b2.end_date))
        = false := by with_unfolding_all rfl
    rw [hfalse] at hx
    exact Bool.false_ne_true hx

/-! ## C5 — group-expense split validation -/

/-- C5 counterexample.  Splitting an expense of 100 as `[60, 30]` is
rejected, and no split, debt or notification persists — but the
`GroupExpense` row itself *does* persist, because the source commits it
before validating the splits.  The claimed all-or-nothing property fails
on the `GroupExpense` table. -/
theorem group_expense_persists_on_reject :
    (createAndSplitGroupExpense 1 1 100 "x" [⟨2, 60⟩, ⟨2, 30⟩] dbSplitGroup).1
        = some Err.badRequest
    ∧ (createAndSplitGroupExpense 1 1 100 "x" [⟨2, 60⟩, ⟨2, 30⟩] dbSplitGroup).2.groupExpenses
        = [⟨1, 1, 1, 100, "x"⟩]
    ∧ dbSplitGroup.groupExpenses = []
    ∧ (createAndSplitGroupExpense 1 1 100 "x" [⟨2, 60⟩, ⟨2, 30⟩] dbSplitGroup).2.expenseSplits = []
    ∧ (createAndSplitGroupExpense 1 1 100 "x" [⟨2, 60⟩, ⟨2, 30⟩] dbSplitGroup).2.groupDebts = []
    ∧ (createAndSplitGroupExpense 1 1 100 "x" [⟨2, 60⟩, ⟨2, 30⟩] dbSplitGroup).2.notifications
        = [] :=
  of_decide_eq_true (by with_unfolding_all rfl)

/-- C5 (amended).  When the payer is an active member and the splits are
invalid — the split total differs from the expense amount, or some
split\x27s user is not an active member of the group — the operation is
rejected with 400 and no `ExpenseSplit`, `GroupDebt` or `Notification`
persists; the freshly created `GroupExpense` row, however, is committed
before validation and persists. -/
theorem split_validation_partial_persistence (gid uid : Nat) (amount : ℚ)
    (description : String) (splits : List ExpenseSplitCreateData) (db : DB)
    (hmem : isActiveMember uid gid db = true)
    (hbad : (splits.map (fun s => s.amount)).sum ≠ amount
      ∨ ∃ s ∈ splits, isActiveMember s.user_id gid db = false) :
    (createAndSplitGroupExpense gid uid amount description splits db).1 = some Err.badRequest
    ∧ (createAndSplitGroupExpense gid uid amount description splits db).2
        = { db with groupExpenses := db.groupExpenses
            ++ [⟨freshGroupExpenseId db, gid, uid, amount, description⟩] } := by
  have hmem' : (!(isActiveMember uid gid db)) = false := by rw [hmem]; rfl
  by_cases hs : (splits.map (fun s => s.amount)).sum = amount
  · have hne : ((splits.map (fun s => s.amount)).sum != amount) = false := by
      simp [hs]
    obtain ⟨s, hsin, hsfalse⟩ : ∃ s ∈ splits, isActiveMember s.user_id gid db = false := by
      cases hbad with
      | inl h => exact absurd hs h
      | inr h => exact h
    have hall : splits.all (fun s => isActiveMember s.user_id gid
        { db with groupExpenses := db.groupExpenses
          ++ [⟨freshGroupExpenseId db, gid, uid, amount, description⟩] }) = false := by
      apply List.all_eq_false.mpr
      exact ⟨s, hsin, by simpa [isActiveMember] using hsfalse⟩
    refine ⟨?_, ?_⟩ <;>
      simp only [createAndSplitGroupExpense, hmem', Bool.false_eq_true, if_false,
        hne, hall, if_true]
  · have hne : ((splits.map (fun s => s.amount)).sum != amount) = true := by
      simp [hs]
    refine ⟨?_, ?_⟩ <;>
      simp only [createAndSplitGroupExpense, hmem', Bool.false_eq_true, if_false,
        hne, if_true]

/-- Witness for `split_validation_partial_persistence`: the concrete
100-vs-`[60, 30]` mismatch on `dbSplitGroup`. -/
theorem split_validation_partial_persistence_witness :
    (createAndSplitGroupExpense 1 1 100 "y" [⟨2, 60⟩, ⟨2, 30⟩] dbSplitGroup).1
        = some Err.badRequest
    ∧ (createAndSplitGroupExpense 1 1 100 "y" [⟨2, 60⟩, ⟨2, 30⟩] dbSplitGroup).2
        = { dbSplitGroup with groupExpenses := dbSplitGroup.groupExpenses
            ++ [⟨freshGroupExpenseId dbSplitGroup, 1, 1, 100, "y"⟩] } :=
  split_validation_partial_persistence 1 1 100 "y" [⟨2, 60⟩, ⟨2, 30⟩] dbSplitGroup
    (by with_unfolding_all rfl)
    (Or.inl (of_decide_eq_true (by with_unfolding_all rfl)))

/-! ## C6 — expiry sweep -/

/-- C6.  One pass of the expiry sweep over `dbExpired` (today = 10):
budget 1 (`end_date` 9, strictly past) is deactivated and exactly one
deduplicated notification is created for its owner, while budget 2
(`end_date` = today) stays active with no notification.  However, the
created notification carries *no* type (`none`) — not the SYSTEM type the
spec requires — even though `models/notification.py` declares the `type`
column `nullable=False`, so the insert violates the model\x27s own NOT
NULL constraint. -/
theorem expiry_sweep_notification_untyped :
    (checkAndDeactivateExpiredBudgets 10 dbExpired).generalBudgets
        = [⟨1, 100, 0, 9, 1, "deactivated"⟩, ⟨2, 50, 0, 10, 1, "active"⟩]
    ∧ (checkAndDeactivateExpiredBudgets 10 dbExpired).notifications
        = [⟨1, 1, none, deactivationMessage 1, false, 0⟩]
    ∧ (∀ n ∈ (checkAndDeactivateExpiredBudgets 10 dbExpired).notifications,
        ¬n.type = some NotificationType.SYSTEM) :=
  of_decide_eq_true (by with_unfolding_all rfl)

/-! ## C9 — notification retention sweep -/

/-- C9.  One pass of `delete_old_notifications` keeps exactly the
notifications created at most thirty days before `now`, regardless of
read state, and introduces no new rows: a notification survives iff
`now − 30 days ≤ created_at`. -/
theorem retention_sweep_characterization (now : Int) (db : DB) (n : Notification)
    (h : n ∈ db.notifications) :
    (n ∈ (deleteOldNotifications now db).notifications ↔ now - thirtyDays ≤ n.created_at)
    ∧ ∀ m ∈ (deleteOldNotifications now db).notifications, m ∈ db.notifications := by
  constructor
  · constructor
    · intro hmem
      have hmem2 : n ∈ db.notifications.filter
          (fun x => !(decide (x.created_at < now - thirtyDays))) := hmem
      have hp := (List.mem_filter.mp hmem2).2
      simp at hp
      omega
    · intro hle
      show n ∈ db.notifications.filter
        (fun x => !(decide (x.created_at < now - thirtyDays)))
      apply List.mem_filter.mpr
      refine ⟨h, ?_⟩
      simp
      omega
  · intro m hm
    have hm2 : m ∈ db.notifications.filter
        (fun x => !(decide (x.created_at < now - thirtyDays))) := hm
    exact (List.mem_filter.mp hm2).1

/-- Witness for `retention_sweep_characterization` on `dbRetention`
(`now` = 2678500 seconds, i.e. 31 days): the 31-day-old notification is
deleted, the 29-day-old one retained. -/
theorem retention_sweep_characterization_witness :
    ¬(⟨1, 1, some NotificationType.ALERT, "old", false, 0⟩ : Notification)
        ∈ (deleteOldNotifications 2678500 dbRetention).notifications
    ∧ (⟨2, 1, some NotificationType.ALERT, "new", true, 172800⟩ : Notification)
        ∈ (deleteOldNotifications 2678500 dbRetention).notifications := by
  have h1 := retention_sweep_characterization 2678500 dbRetention
    ⟨1, 1, some NotificationType.ALERT, "old", false, 0⟩ (by decide)
  have h2 := retention_sweep_characterization 2678500 dbRetention
    ⟨2, 1, some NotificationType.ALERT, "new", true, 172800⟩ (by decide)
  constructor
  · intro hmem
    exact absurd (h1.1.mp hmem) (by decide)
  · exact h2.1.mpr (by decide)

/-! ## C10 — mark-read side effect of general-budget mutations -/

/-- C10.  On their success paths, updating, deactivating and deleting the
general budget all first mark as read every unread notification of the
user whose message contains the substring `"budget"` case-insensitively,
leaving every other notification unchanged. -/
theorem budget_mutation_marks_notifications_read (uid budgetId : Nat)
    (data : GeneralBudgetData) (db db1 db2 db3 : DB)
    (h1 : updateGeneralBudget uid data db = Except.ok db1)
    (h2 : deactivateGeneralBudget uid db = Except.ok db2)
    (h3 : deleteGeneralBudget uid budgetId db = Except.ok db3) :
    (db1.notifications = markBudgetNotificationsRead uid db.notifications
      ∧ db2.notifications = markBudgetNotificationsRead uid db.notifications
      ∧ db3.notifications = markBudgetNotificationsRead uid db.notifications)
    ∧ ∀ n ∈ db.notifications,
        (n.user_id = uid ∧ messageMentionsBudget n.message = true ∧ n.is_read = false →
          { n with is_read := true } ∈ db1.notifications)
        ∧ (¬(n.user_id = uid ∧ messageMentionsBudget n.message = true ∧ n.is_read = false) →
          n ∈ db1.notifications) := by
  have e1 : db1.notifications = markBudgetNotificationsRead uid db.notifications := by
    unfold updateGeneralBudget at h1
    split at h1
    · cases h1
    · split at h1
      · cases h1
      · rw [← Except.ok.inj h1]
  have e2 : db2.notifications = markBudgetNotificationsRead uid db.notifications := by
    unfold deactivateGeneralBudget at h2
    split at h2
    · cases h2
    · rw [← Except.ok.inj h2]
  have e3 : db3.notifications = markBudgetNotificationsRead uid db.notifications := by
    unfold deleteGeneralBudget at h3
    split at h3
    · cases h3
    · split at h3
      · cases h3
      · rw [← Except.ok.inj h3]
  refine ⟨⟨e1, e2, e3⟩, ?_⟩
  intro n hn
  constructor
  · intro hmatch
    rw [e1]
    have hcond : (n.user_id == uid && messageMentionsBudget n.message
        && n.is_read == false) = true := by
      simp [hmatch.1, hmatch.2.1, hmatch.2.2]
    show { n with is_read := true } ∈ db.notifications.map (fun m =>
      if m.user_id == uid && messageMentionsBudget m.message && m.is_read == false
      then { m with is_read := true } else m)
    refine List.mem_map.mpr ⟨n, hn, ?_⟩
    exact if_pos hcond
  · intro hnot
    rw [e1]
    have hb : (n.user_id == uid && messageMentionsBudget n.message && n.is_read == false)
        = false := by
      by_contra hcon
      have htrue : (n.user_id == uid && messageMentionsBudget n.message
          && n.is_read == false) = true := by
        cases hx : (n.user_id == uid && messageMentionsBudget n.message
            && n.is_read == false) with
        | true => rfl
        | false => exact absurd hx hcon
      simp only [Bool.and_eq_true, beq_iff_eq] at htrue
      exact hnot ⟨htrue.1.1, htrue.1.2, htrue.2⟩
    show n ∈ db.notifications.map (fun m =>
      if m.user_id == uid && messageMentionsBudget m.message && m.is_read == false
      then { m with is_read := true } else m)
    refine List.mem_map.mpr ⟨n, hn, ?_⟩
    refine if_neg ?_
    intro hc
    rw [hb] at hc
    simp at hc

/-- Witness for `budget_mutation_marks_notifications_read` on
`dbMarkRead`: the mixed-case `BUDGET` notification is the one marked
read. -/
theorem budget_mutation_marks_notifications_read_witness :
    dbMarkReadUpdated.notifications = markBudgetNotificationsRead 1 dbMarkRead.notifications
    ∧ dbMarkReadDeactivated.notifications
        = markBudgetNotificationsRead 1 dbMarkRead.notifications
    ∧ messageMentionsBudget "You exceeded your BUDGET" = true
    ∧ messageMentionsBudget "group invite" = false := by
  have h := budget_mutation_marks_notifications_read 1 1 ⟨200, 0, 10⟩ dbMarkRead
    dbMarkReadUpdated dbMarkReadDeactivated dbMarkReadDeleted
    (by with_unfolding_all rfl) (by with_unfolding_all rfl) (by with_unfolding_all rfl)
  exact ⟨h.1.1, h.1.2.1, of_decide_eq_true (by with_unfolding_all rfl),
    of_decide_eq_true (by with_unfolding_all rfl)⟩

/-! ## C8 — three-tier category-budget status -/

/-- C8 counterexample.  The schema places no bound on `amount_limit`, so
an active category budget with limit 0 is admissible; with no expenses
its remaining amount is 0 ≤ 0, yet the endpoint reports
`"within limits"` (0 ≥ 0.2 × 0), not the `"exceeded"` the claim
requires. -/
theorem status_zero_limit_within_limits :
    retrieveCategoryBudgetStatus 1 "food" dbZeroLimit
        = Except.ok ⟨"within limits", 0, "food"⟩
    ∧ ((0 : ℚ) ≤ 0)
    ∧ ¬("within limits" = "exceeded") :=
  ⟨by with_unfolding_all rfl, le_refl 0, by decide⟩

/-- C8 (amended).  For an active category budget with
`amount_limit > 0`, the status endpoint returns exactly the three-tier
string of the claim: `"within limits"` iff `remaining ≥ 0.2 ×
amount_limit`, `"nearing threshold"` iff `0 < remaining < 0.2 ×
amount_limit`, and `"exceeded"` iff `remaining ≤ 0` — where `remaining`
is the window sum the endpoint computes. -/
theorem category_status_three_tier (uid : Nat) (cname : String) (db : DB)
    (c : Category) (b : CategoryBudget)
    (hc : (db.categories.filter (fun x => x.user_id == uid && x.name == cname)).head?
      = some c)
    (hb : (db.categoryBudgets.filter (fun x => x.user_id == uid && x.category_id == c.id
      && x.status == "active")).head? = some b)
    (hl : 0 < b.amount_limit) :
    retrieveCategoryBudgetStatus uid cname db
        = Except.ok ⟨statusSent (categoryStatusRemaining b db.expenses) b.amount_limit,
            categoryStatusRemaining b db.expenses, cname⟩
    ∧ (statusSent (categoryStatusRemaining b db.expenses) b.amount_limit = "within limits"
        ↔ b.amount_limit * (1/5) ≤ categoryStatusRemaining b db.expenses)
    ∧ (statusSent (categoryStatusRemaining b db.expenses) b.amount_limit
          = "nearing threshold"
        ↔ 0 < categoryStatusRemaining b db.expenses
          ∧ categoryStatusRemaining b db.expenses < b.amount_limit * (1/5))
    ∧ (statusSent (categoryStatusRemaining b db.expenses) b.amount_limit = "exceeded"
        ↔ categoryStatusRemaining b db.expenses ≤ 0) := by
  refine ⟨by simp [retrieveCategoryBudgetStatus, hc, hb], ?_, ?_, ?_⟩ <;>
  · by_cases h1 : b.amount_limit * (1/5) ≤ categoryStatusRemaining b db.expenses
    · have hs : statusSent (categoryStatusRemaining b db.expenses) b.amount_limit
          = "within limits" := by
        unfold statusSent
        rw [if_pos h1]
      rw [hs]
      first
      | exact iff_of_true rfl h1
      | · apply iff_of_false (by decide)
          rintro ⟨-, hlt⟩
          exact absurd h1 (not_le.mpr hlt)
      | · apply iff_of_false (by decide)
          intro hle
          have h02 : (0 : ℚ) < b.amount_limit * (1/5) := by positivity
          linarith
    · have h1' : categoryStatusRemaining b db.expenses < b.amount_limit * (1/5) :=
        not_le.mp h1
      by_cases h2 : 0 < categoryStatusRemaining b db.expenses
      · have hs : statusSent (categoryStatusRemaining b db.expenses) b.amount_limit
            = "nearing threshold" := by
          unfold statusSent
          rw [if_neg h1, if_pos h2]
        rw [hs]
        first
        | exact iff_of_true rfl ⟨h2, h1'⟩
        | · apply iff_of_false (by decide)
            intro hge
            exact absurd hge (not_le.mpr (lt_of_lt_of_le h1' (le_refl _)))
        | · apply iff_of_false (by decide)
            intro hle
            exact absurd h2 (not_lt.mpr hle)
      · have hs : statusSent (categoryStatusRemaining b db.expenses) b.amount_limit
            = "exceeded" := by
          unfold statusSent
          rw [if_neg h1, if_neg h2]
        rw [hs]
        first
        | exact iff_of_true rfl (not_lt.mp h2)
        | · apply iff_of_false (by decide)
            intro hge
            have h02 : (0 : ℚ) < b.amount_limit * (1/5) := by positivity
            exact h2 (lt_of_lt_of_le h02 hge)
        | · apply iff_of_false (by decide)
            rintro ⟨hpos, -⟩
            exact h2 hpos

/-- Witness for `category_status_three_tier` on `dbOutOfWindow`: the
active `food` budget (limit 3) has no in-window expense, remaining 3,
status `"within limits"`. -/
theorem category_status_three_tier_witness :
    retrieveCategoryBudgetStatus 1 "food" dbOutOfWindow
      = Except.ok ⟨"within limits", 3, "food"⟩ := by
  have h := category_status_three_tier 1 "food" dbOutOfWindow ⟨10, 1, "food"⟩
    ⟨1, 10, 3, 10, 20, 1, "active"⟩ (by with_unfolding_all rfl) (by with_unfolding_all rfl)
    (by norm_num)
  rw [h.1]
  with_unfolding_all rfl

/-! ## C7 — per-budget coverage of the threshold checks -/

theorem mem_of_getLast?_eq {α : Type} (l : List α) (a : α) (h : l.getLast? = some a) :
    a ∈ l := by
  obtain ⟨hne, heq⟩ := List.mem_getLast?_eq_getLast (Option.mem_def.mpr h)
  rw [heq]
  exact List.getLast_mem hne

theorem hasUnread_append (uid : Nat) (m : String) (ns t : List Notification)
    (h : hasUnread uid m ns = true) : hasUnread uid m (ns ++ t) = true := by
  unfold hasUnread at h ⊢
  rw [List.any_append, h]
  rfl

/-- Each loop iteration of `check_category_budget` only appends
notifications; nothing is removed or modified. -/
theorem checkCategoryBudgetStep_monotone (uid : Nat) (ab : List CategoryBudget)
    (db0 : DB) (st : DB × List String) (item : Nat × ℚ) :
    ∃ t, (checkCategoryBudgetStep uid ab db0 st item).1.notifications
      = st.1.notifications ++ t := by
  unfold checkCategoryBudgetStep
  cases lookupLastBudget ab item.1 with
  | none => exact ⟨[], (List.append_nil _).symm⟩
  | some budget =>
    simp only []
    by_cases hr : budget.amount_limit - item.2 < 0
    · rw [if_pos hr]
      cases hu : hasUnread uid
          (categoryExceededMessage (categoryNameOf uid budget.category_id db0)
            (abs (budget.amount_limit - item.2)) budget.amount_limit)
          st.1.notifications with
      | true => exact ⟨[], by simp⟩
      | false =>
        exact ⟨[⟨freshNotificationId st.1, uid, some .ALERT,
          categoryExceededMessage (categoryNameOf uid budget.category_id db0)
            (abs (budget.amount_limit - item.2)) budget.amount_limit, false, 0⟩], by simp⟩
    · rw [if_neg hr]
      exact ⟨[], (List.append_nil _).symm⟩

/-- Processing the totals entry of an exceeded category budget leaves an
unread notification with its message in the state (either the
pre-existing one that suppressed the insert, or the inserted one). -/
theorem checkCategoryBudgetStep_establish (uid : Nat) (ab : List CategoryBudget)
    (db0 : DB) (st : DB × List String) (cid : Nat) (total : ℚ) (cb : CategoryBudget)
    (hlb : lookupLastBudget ab cid = some cb)
    (hneg : cb.amount_limit - total < 0) :
    hasUnread uid (categoryExceededMessage (categoryNameOf uid cb.category_id db0)
        (abs (cb.amount_limit - total)) cb.amount_limit)
      ((checkCategoryBudgetStep uid ab db0 st (cid, total)).1.notifications) = true := by
  unfold checkCategoryBudgetStep
  simp only [hlb]
  rw [if_pos hneg]
  cases hu : hasUnread uid
      (categoryExceededMessage (categoryNameOf uid cb.category_id db0)
        (abs (cb.amount_limit - total)) cb.amount_limit) st.1.notifications with
  | true => simpa using hu
  | false =>
    show hasUnread uid _ (st.1.notifications ++ _) = true
    unfold hasUnread
    rw [List.any_append]
    simp

/-- An unread notification survives the rest of the totals fold. -/
theorem checkCategoryBudget_foldl_preserve (uid : Nat) (ab : List CategoryBudget)
    (db0 : DB) (m : String) (l : List (Nat × ℚ)) (st : DB × List String)
    (h : hasUnread uid m st.1.notifications = true) :
    hasUnread uid m
      ((l.foldl (checkCategoryBudgetStep uid ab db0) st).1.notifications) = true := by
  induction l generalizing st with
  | nil => exact h
  | cons x xs ih =>
    rw [List.foldl_cons]
    apply ih
    obtain ⟨t, ht⟩ := checkCategoryBudgetStep_monotone uid ab db0 st x
    rw [ht]
    exact hasUnread_append _ _ _ _ h

/-- C7 counterexample.  In `dbTwoBudgets` the user owns two active
general budgets, both exceeded — but `check_budget` queries with
`.first()` and considers only the first: after the run no notification
about the second budget (limit 50, exceeded by 50) exists, and only the
first budget\x27s message was pushed. -/
theorem check_budget_only_first_active :
    (⟨2, 50, 20, 30, 1, "active"⟩ : GeneralBudget) ∈ activeGeneralBudgets 1 dbTwoBudgets
    ∧ generalBudgetRemaining ⟨2, 50, 20, 30, 1, "active"⟩ dbTwoBudgets.expenses = -50
    ∧ hasUnread 1 (generalExceededMessage 50 50)
        ((checkBudget 1 dbTwoBudgets).1.notifications) = false
    ∧ (checkBudget 1 dbTwoBudgets).2 = [generalExceededMessage 100 100]
    ∧ (checkCategoryBudget 1 dbTwoBudgets).1 = dbTwoBudgets :=
  of_decide_eq_true (by with_unfolding_all rfl)

/-- C7 (amended).  `check_budget` considers only the *first* active
general budget: when that budget\x27s window remaining is negative, an
unread notification with its message exists after the run.
`check_category_budget` covers, for every category, the *last* active
budget of that category: whenever the user has at least one expense in
the category and the sum of all their expenses in it exceeds that
budget\x27s limit, an unread notification with its message exists after
the run. -/
theorem threshold_check_coverage (uid : Nat) (db : DB) :
    (∀ b, (activeGeneralBudgets uid db).head? = some b →
      generalBudgetRemaining b db.expenses < 0 →
      hasUnread uid (generalExceededMessage b.amount_limit
          (abs (generalBudgetRemaining b db.expenses)))
        ((checkBudget uid db).1.notifications) = true)
    ∧ (∀ cid cb, lookupLastBudget (activeCategoryBudgets uid db) cid = some cb →
      db.expenses.filter (fun e => e.user_id == uid && e.category_id == cid) ≠ [] →
      cb.amount_limit - ((db.expenses.filter (fun e => e.user_id == uid
          && e.category_id == cid)).map (fun e => e.amount)).sum < 0 →
      hasUnread uid (categoryExceededMessage (categoryNameOf uid cb.category_id db)
          (abs (cb.amount_limit - ((db.expenses.filter (fun e => e.user_id == uid
            && e.category_id == cid)).map (fun e => e.amount)).sum)) cb.amount_limit)
        ((checkCategoryBudget uid db).1.notifications) = true) := by
  constructor
  · intro b hb hneg
    unfold checkBudget
    rw [hb]
    simp only []
    rw [if_pos hneg]
    cases hu : hasUnread uid (generalExceededMessage b.amount_limit
        (abs (generalBudgetRemaining b db.expenses))) db.notifications with
    | true => simpa using hu
    | false =>
      show hasUnread uid _ (db.notifications ++ _) = true
      unfold hasUnread
      rw [List.any_append]
      simp
  · intro cid cb hlb hne hneg
    have hcb := List.mem_filter.mp (mem_of_getLast?_eq _ _ hlb)
    have hcbcat : cb.category_id = cid := by simpa using hcb.2
    have habne : (activeCategoryBudgets uid db).isEmpty = false := by
      cases hA : activeCategoryBudgets uid db with
      | nil => rw [hA] at hcb; cases hcb.1
      | cons a t => rfl
    have hfe : (thresholdUserExpenses uid (activeCategoryBudgets uid db)
          db.expenses).filter (fun e => e.category_id == cid)
        = db.expenses.filter (fun e => e.user_id == uid && e.category_id == cid) := by
      unfold thresholdUserExpenses
      rw [List.filter_filter]
      apply List.filter_congr
      intro e he
      by_cases hcat : e.category_id = cid
      · have h1 : (e.category_id == cid) = true := by simp [hcat]
        have hany : (activeCategoryBudgets uid db).any
            (fun b => b.category_id == e.category_id) = true :=
          List.any_eq_true.mpr ⟨cb, hcb.1, by simp [hcbcat, hcat]⟩
        rw [h1, hany]
        simp
      · have h1 : (e.category_id == cid) = false := by simp [hcat]
        rw [h1]
        simp
    have hfene : (thresholdUserExpenses uid (activeCategoryBudgets uid db)
        db.expenses).filter (fun e => e.category_id == cid) ≠ [] := by
      rw [hfe]; exact hne
    have hemp : ((thresholdUserExpenses uid (activeCategoryBudgets uid db)
        db.expenses).filter (fun e => e.category_id == cid)).isEmpty = false := by
      cases hx : (thresholdUserExpenses uid (activeCategoryBudgets uid db)
          db.expenses).filter (fun e => e.category_id == cid) with
      | nil => exact absurd hx hfene
      | cons y ys => rfl
    have hlt : lookupTotal (categoryTotals (thresholdUserExpenses uid
          (activeCategoryBudgets uid db) db.expenses)) cid
        = some (((db.expenses.filter (fun e => e.user_id == uid
            && e.category_id == cid)).map (fun e => e.amount)).sum) := by
      rw [lookupTotal_categoryTotals, hemp]
      rw [hfe]
      rfl
    have hmemT := mem_of_lookupTotal _ _ _ hlt
    obtain ⟨l1, l2, hsplit⟩ := List.append_of_mem hmemT
    unfold checkCategoryBudget
    simp only [habne, Bool.false_eq_true, if_false]
    rw [hsplit, List.foldl_append, List.foldl_cons]
    apply checkCategoryBudget_foldl_preserve
    exact checkCategoryBudgetStep_establish uid _ db _ cid _ cb hlb hneg

/-- Witness for `threshold_check_coverage` on `dbThreshold`: the first
general budget (exceeded by 40) and the `food` category budget (limit
30, expenses 50) both leave their unread messages after the runs. -/
theorem threshold_check_coverage_witness :
    hasUnread 1 (generalExceededMessage 100 40)
        ((checkBudget 1 dbThreshold).1.notifications) = true
    ∧ hasUnread 1 (categoryExceededMessage "food" 20 30)
        ((checkCategoryBudget 1 dbThreshold).1.notifications) = true := by
  have h := threshold_check_coverage 1 dbThreshold
  constructor
  · have hx := h.1 ⟨1, 100, 0, 10, 1, "active"⟩ (by with_unfolding_all rfl)
      (of_decide_eq_true (by with_unfolding_all rfl))
    have heq : generalExceededMessage
        ((⟨1, 100, 0, 10, 1, "active"⟩ : GeneralBudget).amount_limit)
        (abs (generalBudgetRemaining ⟨1, 100, 0, 10, 1, "active"⟩ dbThreshold.expenses))
        = generalExceededMessage 100 40 := by with_unfolding_all rfl
    rw [heq] at hx
    exact hx
  · have hx := h.2 10 ⟨1, 10, 30, 0, 50, 1, "active"⟩ (by with_unfolding_all rfl)
      (by with_unfolding_all decide)
      (of_decide_eq_true (by with_unfolding_all rfl))
    have heq : categoryExceededMessage
        (categoryNameOf 1 ((⟨1, 10, 30, 0, 50, 1, "active"⟩ : CategoryBudget).category_id)
          dbThreshold)
        (abs ((⟨1, 10, 30, 0, 50, 1, "active"⟩ : CategoryBudget).amount_limit
          - ((dbThreshold.expenses.filter (fun e => e.user_id == 1
            && e.category_id == 10)).map (fun e => e.amount)).sum))
        ((⟨1, 10, 30, 0, 50, 1, "active"⟩ : CategoryBudget).amount_limit)
        = categoryExceededMessage "food" 20 30 := by with_unfolding_all rfl
    rw [heq] at hx
    exact hx

end ExpenseTracker
